import Mathlib

/-!
Shallow embedding of the AURA decision layer
(`ml-service/app/decision/feature_contract.py` and
`ml-service/app/decision/scoring.py`).

Modelling conventions:
* A Python numeric value is modelled as a rational number (`ℚ`); the special
  floating-point values NaN and ±Infinity are explicit constructors of the
  `RawVal` type, as are Python booleans and unconvertible objects
  (non-numeric strings, lists, ...).  Python `float(True) = 1.0` and
  `float(False) = 0.0`, which `validOf` reflects.
* A Python dict of raw features is a `List (String × Option RawVal)`
  (association list, first binding wins, mirroring dict lookup); the inner
  `Option` is Python `None` stored under a present key.
* Vector entries are `PyFloat` (a float that may be NaN or infinite); the
  imputation pipeline only ever produces finite entries, which is exactly
  what the validator checks.
* ASCII apostrophes inside Python string literals are rendered as U+2019
  in the corresponding Lean string literals.
* The global model registry of `scoring.py` is made explicit: `score_session`
  takes a `ready` flag (models loaded) and a prediction function standing for
  the four pickled per-skill regressors (`_load_models` succeeds only when
  all four model files are present).
-/

namespace Aura

/-- A raw feature value as received from the perception layer: a finite
numeric value (int, float or numeric string), a Python bool, NaN,
±Infinity, or an object on which `float()` raises. -/
inductive RawVal where
  | num (q : ℚ)
  | boolv (b : Bool)
  | nanv
  | infv
  | badstr
deriving DecidableEq

/-- A Python dict mapping feature names to possibly-`None` raw values.
An absent key is modelled by the name not occurring in the list. -/
def Raw : Type := List (String × Option RawVal)

/-- `features.get(k)`-style lookup returning the stored binding:
`none` = key absent, `some none` = key present with value `None`. -/
def rawget (raw : Raw) (k : String) : Option (Option RawVal) :=
  List.lookup k raw

/-- The validity check of `impute_missing_features` (and the identical one in
`_identify_low_features`): `float(value)` must succeed and the result must be
neither NaN nor infinite.  Returns the converted value when valid. -/
def validOf : Option RawVal → Option ℚ
  | some (.num q) => some q
  | some (.boolv b) => some (if b then 1 else 0)
  | _ => none

/-- A Python float: finite, NaN, or infinite. -/
inductive PyFloat where
  | fin (q : ℚ)
  | pnan
  | pinf
deriving DecidableEq

def PyFloat.isNanF : PyFloat → Bool
  | .pnan => true
  | _ => false

def PyFloat.isInfF : PyFloat → Bool
  | .pinf => true
  | _ => false

def PyFloat.isFin : PyFloat → Bool
  | .fin _ => true
  | _ => false

/-- Per-feature metadata from `FEATURE_METADATA`. -/
structure Meta where
  fmin : ℚ
  fmax : ℚ
  fdefault : ℚ
  modality : String
  opt : Bool
deriving DecidableEq

/-- `TEXT_FEATURES` (27 features, frozen order). -/
def TEXT_FEATURES : List String :=
  ["semantic_relevance_mean", "semantic_relevance_std", "topic_drift_ratio",
   "avg_sentence_length", "sentence_length_std", "avg_response_length_sec",
   "response_length_consistency", "assertive_phrase_ratio", "modal_verb_ratio",
   "hedge_ratio", "filler_word_ratio", "vague_phrase_ratio",
   "information_density", "specificity_score", "redundancy_score",
   "answer_depth_score", "llm_confidence_mean", "llm_clarity_mean",
   "llm_depth_mean", "llm_empathy_mean", "llm_evasion_mean",
   "empathy_phrase_ratio", "reflective_response_ratio", "question_back_ratio",
   "avg_sentiment", "sentiment_variance", "negative_spike_count"]

/-- `AUDIO_FEATURES` (14 features, frozen order). -/
def AUDIO_FEATURES : List String :=
  ["speech_rate_wpm", "speech_rate_variance", "mean_pause_duration",
   "pause_frequency", "silence_ratio", "pitch_mean", "pitch_variance",
   "energy_mean", "energy_variance", "monotony_score",
   "audio_confidence_prob", "audio_nervous_prob", "audio_calm_prob",
   "emotion_consistency"]

/-- `VIDEO_FEATURES` (7 features, frozen order; optional modality).
Note that the flag feature `video_available` is itself a member. -/
def VIDEO_FEATURES : List String :=
  ["face_presence_ratio", "eye_contact_ratio", "head_motion_variance",
   "facial_engagement_score", "smile_ratio", "gaze_variance",
   "video_available"]

/-- `ALL_FEATURES = TEXT_FEATURES + AUDIO_FEATURES + VIDEO_FEATURES`. -/
def ALL_FEATURES : List String := TEXT_FEATURES ++ AUDIO_FEATURES ++ VIDEO_FEATURES

/-- `TARGET_LABELS`. -/
def TARGET_LABELS : List String := ["confidence", "clarity", "empathy", "communication"]

/-- `FEATURE_METADATA`: min, max, default, modality, optional. -/
def FEATURE_METADATA : List (String × Meta) :=
  [("semantic_relevance_mean", ⟨0, 1, mkRat 7 10, "text", false⟩),
   ("semantic_relevance_std", ⟨0, 1, mkRat 2 10, "text", false⟩),
   ("topic_drift_ratio", ⟨0, 1, mkRat 15 100, "text", false⟩),
   ("avg_sentence_length", ⟨1, 50, 15, "text", false⟩),
   ("sentence_length_std", ⟨0, 20, 5, "text", false⟩),
   ("avg_response_length_sec", ⟨1, 120, 30, "text", false⟩),
   ("response_length_consistency", ⟨0, 1, mkRat 5 10, "text", false⟩),
   ("assertive_phrase_ratio", ⟨0, 1, mkRat 1 10, "text", false⟩),
   ("modal_verb_ratio", ⟨0, 1, mkRat 1 10, "text", false⟩),
   ("hedge_ratio", ⟨0, 1, mkRat 1 10, "text", false⟩),
   ("filler_word_ratio", ⟨0, 1, mkRat 1 10, "text", false⟩),
   ("vague_phrase_ratio", ⟨0, 1, mkRat 15 100, "text", false⟩),
   ("information_density", ⟨0, 1, mkRat 5 10, "text", false⟩),
   ("specificity_score", ⟨0, 1, mkRat 3 10, "text", false⟩),
   ("redundancy_score", ⟨0, 1, mkRat 3 10, "text", false⟩),
   ("answer_depth_score", ⟨0, 1, mkRat 4 10, "text", false⟩),
   ("llm_confidence_mean", ⟨0, 1, mkRat 5 10, "text", false⟩),
   ("llm_clarity_mean", ⟨0, 1, mkRat 5 10, "text", false⟩),
   ("llm_depth_mean", ⟨0, 1, mkRat 5 10, "text", false⟩),
   ("llm_empathy_mean", ⟨0, 1, mkRat 5 10, "text", false⟩),
   ("llm_evasion_mean", ⟨0, 1, mkRat 5 10, "text", false⟩),
   ("empathy_phrase_ratio", ⟨0, 1, mkRat 5 100, "text", false⟩),
   ("reflective_response_ratio", ⟨0, 1, mkRat 1 10, "text", false⟩),
   ("question_back_ratio", ⟨0, 1, mkRat 1 10, "text", false⟩),
   ("avg_sentiment", ⟨-1, 1, 0, "text", false⟩),
   ("sentiment_variance", ⟨0, 1, mkRat 2 10, "text", false⟩),
   ("negative_spike_count", ⟨0, 20, 1, "text", false⟩),
   ("speech_rate_wpm", ⟨60, 250, 140, "audio", false⟩),
   ("speech_rate_variance", ⟨0, 50, 10, "audio", false⟩),
   ("mean_pause_duration", ⟨mkRat 1 10, 5, mkRat 8 10, "audio", false⟩),
   ("pause_frequency", ⟨0, 30, 8, "audio", false⟩),
   ("silence_ratio", ⟨0, 1, mkRat 2 10, "audio", false⟩),
   ("pitch_mean", ⟨50, 400, 150, "audio", false⟩),
   ("pitch_variance", ⟨0, 100, 25, "audio", false⟩),
   ("energy_mean", ⟨0, 1, mkRat 5 10, "audio", false⟩),
   ("energy_variance", ⟨0, mkRat 5 10, mkRat 15 100, "audio", false⟩),
   ("monotony_score", ⟨0, 1, mkRat 3 10, "audio", false⟩),
   ("audio_confidence_prob", ⟨0, 1, mkRat 5 10, "audio", false⟩),
   ("audio_nervous_prob", ⟨0, 1, mkRat 3 10, "audio", false⟩),
   ("audio_calm_prob", ⟨0, 1, mkRat 5 10, "audio", false⟩),
   ("emotion_consistency", ⟨0, 1, mkRat 6 10, "audio", false⟩),
   ("face_presence_ratio", ⟨0, 1, mkRat 5 10, "video", true⟩),
   ("eye_contact_ratio", ⟨0, 1, mkRat 5 10, "video", true⟩),
   ("head_motion_variance", ⟨0, 1, mkRat 3 10, "video", true⟩),
   ("facial_engagement_score", ⟨0, 1, mkRat 4 10, "video", true⟩),
   ("smile_ratio", ⟨0, 1, mkRat 3 10, "video", true⟩),
   ("gaze_variance", ⟨0, 1, mkRat 3 10, "video", true⟩),
   ("video_available", ⟨0, 1, 0, "video", true⟩)]

/-- `FEATURE_METADATA[feature_name]`; the junk value is never reached since
every name in `ALL_FEATURES` has metadata (see `featureMeta_total`). -/
def featureMeta (name : String) : Meta :=
  (List.lookup name FEATURE_METADATA).getD ⟨0, 0, 0, "", false⟩

/-- `np.clip(value, lo, hi)` on finite values. -/
def npClip (q lo hi : ℚ) : ℚ := min (max q lo) hi

/-- `get_video_available(features)`: 1 if some video feature is present with a
non-`None` value (validity not checked), else 0. -/
def get_video_available (features : Raw) : ℕ :=
  if VIDEO_FEATURES.any (fun feat => ((rawget features feat).join).isSome) then 1 else 0

/-- The per-feature body of the loop of `impute_missing_features`. -/
def impute_feature (features : Raw) (video_available : Bool) (feature_name : String) : ℚ :=
  let meta := featureMeta feature_name
  match validOf ((rawget features feature_name).join) with
  | some float_val => npClip float_val meta.fmin meta.fmax
  | none =>
      if meta.opt then
        if video_available then meta.fdefault else 0
      else meta.fdefault

/-- `impute_missing_features(features, video_available)`: the imputed dict,
built over `ALL_FEATURES`. -/
def impute_missing_features (features : Raw) (video_available : Bool) :
    List (String × ℚ) :=
  ALL_FEATURES.map (fun feature_name => (feature_name, impute_feature features video_available feature_name))

/-- `build_feature_vector(features)`: the vector in frozen order plus the
video-availability flag.  Every entry the pipeline produces is a finite
float, embedded as `PyFloat.fin`. -/
def build_feature_vector (features : Raw) : List PyFloat × ℕ :=
  let video_available := get_video_available features
  (ALL_FEATURES.map
    (fun feat => PyFloat.fin (impute_feature features (video_available == 1) feat)),
   video_available)

/-- `validate_feature_vector(vector)`: shape `(len(ALL_FEATURES),)`, no NaN,
no Infinity. -/
def validate_feature_vector (vector : List PyFloat) : Bool :=
  if vector.length ≠ ALL_FEATURES.length then false
  else if vector.any PyFloat.isNanF then false
  else if vector.any PyFloat.isInfF then false
  else true



/-!  Scoring engine (`scoring.py`). -/

/-- `np.round` on a finite value: round half to even (banker’s rounding). -/
def roundHalfEven (q : ℚ) : ℤ :=
  if q - ⌊q⌋ < mkRat 1 2 then ⌊q⌋
  else if mkRat 1 2 < q - ⌊q⌋ then ⌊q⌋ + 1
  else if ⌊q⌋ % 2 = 0 then ⌊q⌋ else ⌊q⌋ + 1

/-- `np.clip` on integers (used as `np.clip(np.round(pred), 0, 100)`). -/
def npClipInt (n lo hi : ℤ) : ℤ := min (max n lo) hi

/-- `int(np.clip(np.round(pred), 0, 100))`: one skill score from one raw
model prediction. -/
def skill_score (pred : ℚ) : ℤ := npClipInt (roundHalfEven pred) 0 100

/-- The per-skill integer scores dict (`scores` in `score_session`). -/
structure Scores where
  confidence : ℤ
  clarity : ℤ
  empathy : ℤ
  communication : ℤ
deriving DecidableEq

/-- The dict returned by `score_session`.  `error` is the optional `"error"`
key; `video_available` is `none` exactly when the returned dict has no
`"video_available"` key (the two early-return fallback dicts omit it). -/
structure ScoreResult where
  error : Option String
  confidence : ℤ
  clarity : ℤ
  empathy : ℤ
  communication : ℤ
  overall : ℤ
  low_features : List String
  improvement_suggestions : List String
  video_available : Option Bool
deriving DecidableEq

/-- Threshold direction in `bad_thresholds`: `"high"` = high values are bad,
`"low"` = low values are bad. -/
inductive Direction where
  | high
  | low
deriving DecidableEq

/-- The `bad_thresholds` table of `_identify_low_features`, in source order. -/
def bad_thresholds : List (String × Direction × ℚ) :=
  [("silence_ratio", .high, mkRat 3 10),
   ("topic_drift_ratio", .high, mkRat 3 10),
   ("hedge_ratio", .high, mkRat 3 10),
   ("filler_word_ratio", .high, mkRat 3 10),
   ("audio_nervous_prob", .high, mkRat 5 10),
   ("monotony_score", .high, mkRat 5 10),
   ("gaze_variance", .high, mkRat 5 10),
   ("emotion_mismatch_score", .high, mkRat 4 10),
   ("semantic_relevance_mean", .low, mkRat 5 10),
   ("assertive_phrase_ratio", .low, mkRat 1 10),
   ("empathy_phrase_ratio", .low, mkRat 5 100),
   ("eye_contact_ratio", .low, mkRat 4 10),
   ("audio_confidence_prob", .low, mkRat 4 10),
   ("emotion_consistency", .low, mkRat 5 10)]

/-- The loop of `_identify_low_features` over `bad_thresholds`, accumulating
flagged names.  A raw value that is missing, `None`, unconvertible, NaN or
infinite is skipped (`continue`); otherwise the rule fires when
`direction == "high" and value > threshold` or
`direction == "low" and value < threshold`. -/
def ilf_loop (features : Raw) : List (String × Direction × ℚ) → List String → List String
  | [], low_features => low_features
  | (feat, direction, threshold) :: rest, low_features =>
      match validOf ((rawget features feat).join) with
      | none => ilf_loop features rest low_features
      | some float_val =>
          let is_bad :=
            match direction with
            | .high => threshold < float_val
            | .low => float_val < threshold
          if is_bad && !(low_features.contains feat) then
            ilf_loop features rest (low_features ++ [feat])
          else
            ilf_loop features rest low_features

/-- `_identify_low_features(features, scores)`: flagged names in table order,
deduplicated, truncated to the first 5.  (`scores` is an argument of the
source function but is not read by its body.) -/
def identify_low_features (features : Raw) (scores : Scores) : List String :=
  (ilf_loop features bad_thresholds []).take 5

/-- The `feature_suggestions` table of `_generate_suggestions`. -/
def feature_suggestions : List (String × String) :=
  [("silence_ratio", "Reduce pauses and hesitation in your responses"),
   ("audio_nervous_prob", "Practice speaking with a more calm and steady tone"),
   ("hedge_ratio", "Use more definitive language instead of hedging phrases like ’maybe’ or ’I think’"),
   ("filler_word_ratio", "Minimize filler words like ’um’, ’uh’, ’like’, ’you know’"),
   ("assertive_phrase_ratio", "Use more assertive language such as ’I did’, ’I achieved’, ’I led’"),
   ("monotony_score", "Add more variation to your voice tone and speaking pace"),
   ("topic_drift_ratio", "Stay more focused on the question being asked"),
   ("semantic_relevance_mean", "Keep your answers more relevant and on-topic"),
   ("empathy_phrase_ratio", "Use more empathetic language like ’I understand’, ’I see your point’"),
   ("reflective_response_ratio", "Show understanding by reflecting back key points"),
   ("eye_contact_ratio", "Maintain more consistent eye contact with the camera"),
   ("audio_confidence_prob", "Project more confidence through your voice"),
   ("emotion_consistency", "Maintain a more consistent emotional tone throughout")]

/-- Generic suggestion appended when `scores["confidence"] < 50`. -/
def confidence_generic : String :=
  "Focus on projecting confidence through body language and voice"

/-- Generic suggestion appended when `scores["clarity"] < 50`. -/
def clarity_generic : String :=
  "Structure your responses with clear beginnings, middles, and ends"

/-- Generic suggestion appended when `scores["empathy"] < 50`. -/
def empathy_generic : String :=
  "Show more engagement and understanding of the interviewer’s perspective"

/-- The `suggestions` list of `_generate_suggestions` as it stands just
before the dedup-and-truncate block: feature-specific suggestions for each
flagged name, then the generic per-skill suggestions for confidence,
clarity and empathy scores below 50 (the source has no branch for
`communication`). -/
def raw_suggestions (low_features : List String) (scores : Scores) : List String :=
  (low_features.foldl
    (fun suggestions feat =>
      match List.lookup feat feature_suggestions with
      | some s => suggestions ++ [s]
      | none => suggestions) [])
  ++ (if scores.confidence < 50 then [confidence_generic] else [])
  ++ (if scores.clarity < 50 then [clarity_generic] else [])
  ++ (if scores.empathy < 50 then [empathy_generic] else [])

/-- The dedup loop of `_generate_suggestions`: keep the first occurrence of
each string, preserving order (the `seen` set holds exactly the strings
already in the output list). -/
def dedup_keep_first (xs : List String) : List String :=
  xs.foldl (fun unique s => if s ∈ unique then unique else unique ++ [s]) []

/-- `_generate_suggestions(low_features, scores)`. -/
def generate_suggestions (low_features : List String) (scores : Scores) : List String :=
  (dedup_keep_first (raw_suggestions low_features scores)).take 5

/-- `score_session(features)`.

`ready` stands for `_MODELS_LOADED or _load_models()`; when it is true all
four skill models are present (`_load_models` returns `True` only after
loading every one), and `predict vec skill` is
`_MODELS[skill].predict(vec.reshape(1, -1))[0]`. -/
def score_session (ready : Bool) (predict : List PyFloat → String → ℚ)
    (features : Raw) : ScoreResult :=
  if ¬ready then
    { error := some "Models not loaded",
      confidence := 50, clarity := 50, empathy := 50, communication := 50,
      overall := 50, low_features := [], improvement_suggestions := [],
      video_available := none }
  else
    let fv := build_feature_vector features
    if ¬validate_feature_vector fv.fst then
      { error := some "Invalid feature vector",
        confidence := 50, clarity := 50, empathy := 50, communication := 50,
        overall := 50, low_features := [], improvement_suggestions := [],
        video_available := none }
    else
      let scores : Scores :=
        { confidence := skill_score (predict fv.fst "confidence"),
          clarity := skill_score (predict fv.fst "clarity"),
          empathy := skill_score (predict fv.fst "empathy"),
          communication := skill_score (predict fv.fst "communication") }
      let overall : ℤ := roundHalfEven
        (mkRat 25 100 * scores.confidence + mkRat 30 100 * scores.clarity +
         mkRat 20 100 * scores.empathy + mkRat 25 100 * scores.communication)
      let low_features := identify_low_features features scores
      let suggestions := generate_suggestions low_features scores
      { error := none,
        confidence := scores.confidence, clarity := scores.clarity,
        empathy := scores.empathy, communication := scores.communication,
        overall := overall, low_features := low_features,
        improvement_suggestions := suggestions,
        video_available := some (fv.snd == 1) }


/-!  Facts about the frozen schema and helper lemmas. -/

set_option maxRecDepth 8000

/-- Boolean well-formedness of one feature’s metadata: ordered bounds, the
default inside the bounds, and (for optional features) 0 inside the bounds. -/
def metaOkB (name : String) : Bool :=
  decide ((featureMeta name).fmin ≤ (featureMeta name).fmax) &&
  decide ((featureMeta name).fmin ≤ (featureMeta name).fdefault) &&
  decide ((featureMeta name).fdefault ≤ (featureMeta name).fmax) &&
  (!(featureMeta name).opt ||
    (decide ((featureMeta name).fmin ≤ 0) && decide ((0 : ℚ) ≤ (featureMeta name).fmax)))

theorem metaOk_all : ALL_FEATURES.all metaOkB = true := by decide

theorem meta_facts (name : String) (h : name ∈ ALL_FEATURES) :
    (featureMeta name).fmin ≤ (featureMeta name).fmax ∧
    (featureMeta name).fmin ≤ (featureMeta name).fdefault ∧
    (featureMeta name).fdefault ≤ (featureMeta name).fmax ∧
    ((featureMeta name).opt = true →
      (featureMeta name).fmin ≤ 0 ∧ (0 : ℚ) ≤ (featureMeta name).fmax) := by
  have hx := List.all_eq_true.mp metaOk_all name h
  simp only [metaOkB, Bool.and_eq_true, Bool.or_eq_true, Bool.not_eq_true',
    decide_eq_true_eq] at hx
  obtain ⟨⟨⟨h1, h2⟩, h3⟩, h4⟩ := hx
  refine ⟨h1, h2, h3, fun hopt => ?_⟩
  rcases h4 with h4 | h4
  · rw [hopt] at h4; cases h4
  · exact h4

/-- Every video feature is marked optional in the metadata. -/
theorem video_all_opt : VIDEO_FEATURES.all (fun f => (featureMeta f).opt) = true := by decide

theorem npClip_mem (q lo hi : ℚ) (h : lo ≤ hi) : lo ≤ npClip q lo hi ∧ npClip q lo hi ≤ hi :=
  ⟨le_min (le_max_right q lo) h, min_le_right _ _⟩

theorem npClip_of_lt (q lo hi : ℚ) (h : lo ≤ hi) (hq : q < lo) : npClip q lo hi = lo := by
  unfold npClip
  rw [max_eq_right hq.le, min_eq_left h]

theorem npClip_of_gt (q lo hi : ℚ) (h : lo ≤ hi) (hq : hi < q) : npClip q lo hi = hi := by
  unfold npClip
  rw [max_eq_left (h.trans hq.le), min_eq_right hq.le]

theorem npClip_of_between (q lo hi : ℚ) (hlo : lo ≤ q) (hhi : q ≤ hi) : npClip q lo hi = q := by
  unfold npClip
  rw [max_eq_left hlo, min_eq_left hhi]

/-- Range invariant at the level of a single imputed feature. -/
theorem impute_feature_range (features : Raw) (va : Bool) (name : String)
    (h : name ∈ ALL_FEATURES) :
    (featureMeta name).fmin ≤ impute_feature features va name ∧
    impute_feature features va name ≤ (featureMeta name).fmax := by
  obtain ⟨h1, h2, h3, h4⟩ := meta_facts name h
  unfold impute_feature
  cases hv : validOf ((rawget features name).join) with
  | some q =>
      simpa using npClip_mem q (featureMeta name).fmin (featureMeta name).fmax h1
  | none =>
      simp only
      split_ifs with hopt hva
      · exact ⟨h2, h3⟩
      · obtain ⟨hz1, hz2⟩ := h4 hopt
        exact ⟨hz1, hz2⟩
      · exact ⟨h2, h3⟩

theorem floor_le_roundHalfEven (q : ℚ) : ⌊q⌋ ≤ roundHalfEven q := by
  unfold roundHalfEven
  split_ifs <;> omega

theorem roundHalfEven_le_floor_add_one (q : ℚ) : roundHalfEven q ≤ ⌊q⌋ + 1 := by
  unfold roundHalfEven
  split_ifs <;> omega

theorem le_roundHalfEven_of_le (a : ℤ) (q : ℚ) (h : (a : ℚ) ≤ q) : a ≤ roundHalfEven q :=
  le_trans (Int.le_floor.mpr h) (floor_le_roundHalfEven q)

theorem half_val : (mkRat 1 2 : ℚ) = 1 / 2 := by norm_num [mkRat]

theorem roundHalfEven_le_of_le (b : ℤ) (q : ℚ) (h : q ≤ (b : ℚ)) : roundHalfEven q ≤ b := by
  have hfl : ⌊q⌋ ≤ b := (Int.floor_le_floor h).trans_eq (Int.floor_intCast b)
  have hlow : (⌊q⌋ : ℚ) ≤ q := Int.floor_le q
  unfold roundHalfEven
  split_ifs with h1 h2 h3
  · exact hfl
  · rw [half_val] at h1 h2
    have : (⌊q⌋ : ℚ) < (b : ℚ) := by linarith
    have : ⌊q⌋ < b := by exact_mod_cast this
    omega
  · rw [half_val] at h1
    have : (⌊q⌋ : ℚ) < (b : ℚ) := by linarith
    have : ⌊q⌋ < b := by exact_mod_cast this
    omega
  · rw [half_val] at h1
    have : (⌊q⌋ : ℚ) < (b : ℚ) := by linarith
    have : ⌊q⌋ < b := by exact_mod_cast this
    omega

/-- `np.round` really is rounding to a nearest integer. -/
theorem roundHalfEven_nearest (q : ℚ) : |(roundHalfEven q : ℚ) - q| ≤ 1 / 2 := by
  have h0 : (⌊q⌋ : ℚ) ≤ q := Int.floor_le q
  have h1 : q < ⌊q⌋ + 1 := Int.lt_floor_add_one q
  unfold roundHalfEven
  rw [half_val]
  split_ifs with ha hb hc <;> rw [abs_le] <;> constructor <;> push_cast <;> linarith

theorem skill_score_bounds (pred : ℚ) : 0 ≤ skill_score pred ∧ skill_score pred ≤ 100 := by
  unfold skill_score npClipInt
  constructor
  · exact le_min (le_max_right _ _) (by norm_num)
  · exact min_le_right _ _

/-- Spec-side characterization of one `bad_thresholds` rule firing on the
raw input: the raw value is valid (present, convertible, finite) and
violates the threshold in the rule’s direction. -/
def rule_fires (features : Raw) (rule : String × Direction × ℚ) : Bool :=
  match validOf ((rawget features rule.1).join) with
  | none => false
  | some float_val =>
      match rule.2.1 with
      | .high => decide (rule.2.2 < float_val)
      | .low => decide (float_val < rule.2.2)

theorem rule_fires_eq (features : Raw) (feat : String) (direction : Direction) (threshold : ℚ) :
    rule_fires features (feat, direction, threshold) =
      match validOf ((rawget features feat).join) with
      | none => false
      | some float_val =>
          match direction with
          | .high => decide (threshold < float_val)
          | .low => decide (float_val < threshold) := rfl

theorem ilf_loop_eq (features : Raw) (rules : List (String × Direction × ℚ)) :
    ∀ acc : List String,
      (rules.map Prod.fst).Nodup → (∀ r ∈ rules, r.1 ∉ acc) →
      ilf_loop features rules acc =
        acc ++ (rules.filter (rule_fires features)).map Prod.fst := by
  induction rules with
  | nil =>
      intro acc _ _
      simp [ilf_loop]
  | cons head rest ih =>
      obtain ⟨feat, direction, threshold⟩ := head
      intro acc hnd hdisj
      rw [List.map_cons] at hnd
      have hnd2 := List.nodup_cons.mp hnd
      have hfr : feat ∉ rest.map Prod.fst := hnd2.1
      have hfeat_acc : feat ∉ acc := hdisj (feat, direction, threshold) (List.mem_cons_self _ _)
      have hdisj_rest : ∀ r ∈ rest, r.1 ∉ acc := fun r hr => hdisj r (List.mem_cons_of_mem _ hr)
      have hdisj_app : ∀ r ∈ rest, r.1 ∉ acc ++ [feat] := by
        intro r hr
        simp only [List.mem_append, List.mem_singleton]
        rintro (h | h)
        · exact hdisj_rest r hr h
        · refine hfr ?_
          rw [← h]
          exact List.mem_map_of_mem Prod.fst hr
      simp only [ilf_loop]
      cases hv : validOf ((rawget features feat).join) with
      | none =>
          have hrf : rule_fires features (feat, direction, threshold) = false := by
            rw [rule_fires_eq, hv]
          dsimp only
          rw [ih acc hnd2.2 hdisj_rest, List.filter_cons, hrf]
          simp
      | some float_val =>
          cases direction with
          | high =>
              have hrf : rule_fires features (feat, Direction.high, threshold) =
                  decide (threshold < float_val) := by
                rw [rule_fires_eq, hv]
              dsimp only
              by_cases hb : threshold < float_val
              · rw [if_pos (by simp [hb, hfeat_acc]),
                  ih (acc ++ [feat]) hnd2.2 hdisj_app, List.filter_cons, hrf]
                simp [hb]
              · rw [if_neg (by simp [hb]), ih acc hnd2.2 hdisj_rest, List.filter_cons, hrf]
                simp [hb]
          | low =>
              have hrf : rule_fires features (feat, Direction.low, threshold) =
                  decide (float_val < threshold) := by
                rw [rule_fires_eq, hv]
              dsimp only
              by_cases hb : float_val < threshold
              · rw [if_pos (by simp [hb, hfeat_acc]),
                  ih (acc ++ [feat]) hnd2.2 hdisj_app, List.filter_cons, hrf]
                simp [hb]
              · rw [if_neg (by simp [hb]), ih acc hnd2.2 hdisj_rest, List.filter_cons, hrf]
                simp [hb]

/-- The keys of the threshold table are pairwise distinct. -/
theorem bad_thresholds_keys_nodup : (bad_thresholds.map Prod.fst).Nodup := by decide

theorem identify_low_features_eq (features : Raw) (scores : Scores) :
    identify_low_features features scores =
      ((bad_thresholds.filter (rule_fires features)).map Prod.fst).take 5 := by
  unfold identify_low_features
  rw [ilf_loop_eq features bad_thresholds [] bad_thresholds_keys_nodup (by simp)]
  simp

theorem identify_low_features_nodup (features : Raw) (scores : Scores) :
    (identify_low_features features scores).Nodup := by
  rw [identify_low_features_eq]
  refine List.Nodup.sublist (List.take_sublist _ _) ?_
  exact List.Nodup.sublist (List.Sublist.map Prod.fst (List.filter_sublist _)) bad_thresholds_keys_nodup

theorem dedup_foldl_nodup (xs : List String) :
    ∀ acc : List String, acc.Nodup →
      (xs.foldl (fun unique s => if s ∈ unique then unique else unique ++ [s]) acc).Nodup := by
  induction xs with
  | nil =>
      intro acc h
      simpa using h
  | cons x xs ih =>
      intro acc h
      simp only [List.foldl_cons]
      split_ifs with hx
      · exact ih acc h
      · refine ih (acc ++ [x]) ?_
        simp [List.nodup_append, h, hx]

theorem dedup_keep_first_nodup (xs : List String) : (dedup_keep_first xs).Nodup :=
  dedup_foldl_nodup xs [] List.nodup_nil

theorem generate_suggestions_nodup (low_features : List String) (scores : Scores) :
    (generate_suggestions low_features scores).Nodup :=
  List.Nodup.sublist (List.take_sublist _ _) (dedup_keep_first_nodup _)

theorem take_five_len_le {α : Type} (l : List α) : (l.take 5).length ≤ 5 := by
  simp [List.length_take]

/-- The weighted overall score stays within `[0, 100]` when every skill
score does. -/
theorem overall_bounds (c cl e co : ℤ)
    (hc1 : 0 ≤ c) (hc2 : c ≤ 100) (hl1 : 0 ≤ cl) (hl2 : cl ≤ 100)
    (he1 : 0 ≤ e) (he2 : e ≤ 100) (ho1 : 0 ≤ co) (ho2 : co ≤ 100) :
    0 ≤ roundHalfEven (mkRat 25 100 * c + mkRat 30 100 * cl + mkRat 20 100 * e + mkRat 25 100 * co) ∧
    roundHalfEven (mkRat 25 100 * c + mkRat 30 100 * cl + mkRat 20 100 * e + mkRat 25 100 * co) ≤ 100 := by
  have e1 : (mkRat 25 100 : ℚ) = 1 / 4 := by norm_num [mkRat]
  have e2 : (mkRat 30 100 : ℚ) = 3 / 10 := by norm_num [mkRat]
  have e3 : (mkRat 20 100 : ℚ) = 1 / 5 := by norm_num [mkRat]
  have q1 : (0 : ℚ) ≤ (c : ℚ) := by exact_mod_cast hc1
  have q2 : (c : ℚ) ≤ 100 := by exact_mod_cast hc2
  have q3 : (0 : ℚ) ≤ (cl : ℚ) := by exact_mod_cast hl1
  have q4 : (cl : ℚ) ≤ 100 := by exact_mod_cast hl2
  have q5 : (0 : ℚ) ≤ (e : ℚ) := by exact_mod_cast he1
  have q6 : (e : ℚ) ≤ 100 := by exact_mod_cast he2
  have q7 : (0 : ℚ) ≤ (co : ℚ) := by exact_mod_cast ho1
  have q8 : (co : ℚ) ≤ 100 := by exact_mod_cast ho2
  constructor
  · refine le_roundHalfEven_of_le 0 _ ?_
    rw [e1, e2, e3]
    push_cast
    linarith
  · refine roundHalfEven_le_of_le 100 _ ?_
    rw [e1, e2, e3]
    push_cast
    linarith

/-!  Claim theorems. -/

/-- A trivial prediction function, standing for loaded models that always
predict 0; used to exercise the scoring pipeline at concrete inputs. -/
def predictZero : List PyFloat → String → ℚ := fun _ _ => 0

/-- A prediction function producing the spec example’s skill scores
(confidence 80, clarity 60, empathy 40, communication 80). -/
def predictExample : List PyFloat → String → ℚ := fun _ skill =>
  if skill = "confidence" then 80
  else if skill = "clarity" then 60
  else if skill = "empathy" then 40
  else 80

/-- C1: totality and well-formedness of vectorization.  For every raw
feature mapping (including empty mappings, `None` values, NaN, ±Infinity,
non-numeric values and unknown keys), `build_feature_vector` returns a
vector of length `N = 48` whose entries are all finite (no NaN/Infinity),
so the vector always satisfies `validate_feature_vector` and the
`"Invalid feature vector"` branch of `score_session` is unreachable: with
models loaded, the result carries no error marker. -/
theorem C1_vectorization_total (features : Raw) (predict : List PyFloat → String → ℚ) :
    (build_feature_vector features).fst.length = 48 ∧
    ALL_FEATURES.length = 48 ∧
    (build_feature_vector features).fst.all PyFloat.isFin = true ∧
    validate_feature_vector (build_feature_vector features).fst = true ∧
    (score_session true predict features).error = none :=
  ⟨rfl, rfl, rfl, rfl, rfl⟩

/-- C2: range invariant.  The value at every position of the vector built by
`build_feature_vector` is a finite value within the inclusive
`[min, max]` bounds declared for the feature at that position; moreover a
valid raw value is clipped to the nearest bound when out of range and used
as-is when in range. -/
theorem C2_range_invariant (features : Raw) (i : ℕ) (hall : i < ALL_FEATURES.length)
    (hvec : i < (build_feature_vector features).fst.length) :
    ∃ q : ℚ,
      (build_feature_vector features).fst.get ⟨i, hvec⟩ = PyFloat.fin q ∧
      (featureMeta (ALL_FEATURES.get ⟨i, hall⟩)).fmin ≤ q ∧
      q ≤ (featureMeta (ALL_FEATURES.get ⟨i, hall⟩)).fmax ∧
      ∀ q0 : ℚ,
        validOf ((rawget features (ALL_FEATURES.get ⟨i, hall⟩)).join) = some q0 →
        (q0 < (featureMeta (ALL_FEATURES.get ⟨i, hall⟩)).fmin →
            q = (featureMeta (ALL_FEATURES.get ⟨i, hall⟩)).fmin) ∧
        ((featureMeta (ALL_FEATURES.get ⟨i, hall⟩)).fmax < q0 →
            q = (featureMeta (ALL_FEATURES.get ⟨i, hall⟩)).fmax) ∧
        ((featureMeta (ALL_FEATURES.get ⟨i, hall⟩)).fmin ≤ q0 →
            q0 ≤ (featureMeta (ALL_FEATURES.get ⟨i, hall⟩)).fmax → q = q0) := by
  have hmem : ALL_FEATURES.get ⟨i, hall⟩ ∈ ALL_FEATURES := List.get_mem ALL_FEATURES i hall
  obtain ⟨hbound, _, _, _⟩ := meta_facts _ hmem
  refine ⟨impute_feature features (get_video_available features == 1)
      (ALL_FEATURES.get ⟨i, hall⟩), ?_, ?_, ?_, ?_⟩
  · simp [build_feature_vector]
  · exact (impute_feature_range features _ _ hmem).1
  · exact (impute_feature_range features _ _ hmem).2
  · intro q0 hq0
    have himp : impute_feature features (get_video_available features == 1)
        (ALL_FEATURES.get ⟨i, hall⟩) =
        npClip q0 (featureMeta (ALL_FEATURES.get ⟨i, hall⟩)).fmin
          (featureMeta (ALL_FEATURES.get ⟨i, hall⟩)).fmax := by
      unfold impute_feature
      rw [hq0]
    refine ⟨fun hlt => ?_, fun hgt => ?_, fun hlo hhi => ?_⟩
    · rw [himp]
      exact npClip_of_lt q0 _ _ hbound hlt
    · rw [himp]
      exact npClip_of_gt q0 _ _ hbound hgt
    · rw [himp]
      exact npClip_of_between q0 _ _ hlo hhi

/-- Witness for C2 at the spec’s example: raw `silence_ratio = 5.0`
(range `[0, 1]`, position 31) is clipped to `1.0` in the vector. -/
theorem C2_range_invariant_witness :
    (∃ q : ℚ,
      (build_feature_vector [("silence_ratio", some (RawVal.num 5))]).fst.get
          ⟨31, by decide⟩ = PyFloat.fin q ∧
      (featureMeta (ALL_FEATURES.get ⟨31, by decide⟩)).fmin ≤ q ∧
      q ≤ (featureMeta (ALL_FEATURES.get ⟨31, by decide⟩)).fmax ∧
      ∀ q0 : ℚ,
        validOf ((rawget [("silence_ratio", some (RawVal.num 5))]
            (ALL_FEATURES.get ⟨31, by decide⟩)).join) = some q0 →
        (q0 < (featureMeta (ALL_FEATURES.get ⟨31, by decide⟩)).fmin →
            q = (featureMeta (ALL_FEATURES.get ⟨31, by decide⟩)).fmin) ∧
        ((featureMeta (ALL_FEATURES.get ⟨31, by decide⟩)).fmax < q0 →
            q = (featureMeta (ALL_FEATURES.get ⟨31, by decide⟩)).fmax) ∧
        ((featureMeta (ALL_FEATURES.get ⟨31, by decide⟩)).fmin ≤ q0 →
            q0 ≤ (featureMeta (ALL_FEATURES.get ⟨31, by decide⟩)).fmax → q = q0)) ∧
    ALL_FEATURES.get ⟨31, by decide⟩ = "silence_ratio" ∧
    (build_feature_vector [("silence_ratio", some (RawVal.num 5))]).fst.get
        ⟨31, by decide⟩ = PyFloat.fin 1 :=
  ⟨C2_range_invariant [("silence_ratio", some (RawVal.num 5))] 31 (by decide) (by decide),
   by decide, by decide⟩

/-- C5: degraded fallback.  When the models are not loaded,
`score_session` does not raise and returns all four skill scores 50,
overall 50, empty feedback lists, and the models-unavailable error
marker (and no `video_available` key). -/
theorem C5_degraded_fallback (predict : List PyFloat → String → ℚ) (features : Raw) :
    score_session false predict features =
      { error := some "Models not loaded",
        confidence := 50, clarity := 50, empathy := 50, communication := 50,
        overall := 50, low_features := [], improvement_suggestions := [],
        video_available := none } :=
  rfl

/-- C9 (code bug evidence): the models-not-loaded fallback result of
`score_session` omits the `video_available` field that the function’s own
docstring (and the claim) promise in every result, while the normal path
does include it. -/
theorem C9_fallback_omits_video_available :
    (score_session false predictZero []).video_available = none ∧
    (score_session false predictZero []).error = some "Models not loaded" ∧
    (score_session true predictZero []).video_available = some false ∧
    (score_session true predictZero []).error = none :=
  ⟨rfl, rfl, rfl, rfl⟩

/-- C10: the schema lists the flag feature `video_available` among the video
features, so a raw mapping whose only video entry is the key
`video_available` with any non-`None` value (in particular `0.0`, meant to
denote “no video”) drives `get_video_available` to 1, which makes every
other missing video feature be imputed with its nonzero declared default
rather than the neutral `0.0`. -/
theorem C10_flag_feature_flips_detector (v : RawVal) :
    "video_available" ∈ VIDEO_FEATURES ∧
    get_video_available [("video_available", some v)] = 1 ∧
    ∀ feat, feat ∈ VIDEO_FEATURES → feat ≠ "video_available" →
      impute_feature [("video_available", some v)]
          (get_video_available [("video_available", some v)] == 1) feat =
        (featureMeta feat).fdefault ∧
      (featureMeta feat).fdefault ≠ 0 := by
  refine ⟨by decide, rfl, ?_⟩
  intro feat hfeat hne
  fin_cases hfeat
  · exact ⟨rfl, by decide⟩
  · exact ⟨rfl, by decide⟩
  · exact ⟨rfl, by decide⟩
  · exact ⟨rfl, by decide⟩
  · exact ⟨rfl, by decide⟩
  · exact ⟨rfl, by decide⟩
  · exact absurd rfl hne

/-- Witness for C10 at the value `0.0`: the detector reports video present
and the missing `face_presence_ratio` gets its nonzero default `0.5`. -/
theorem C10_flag_feature_flips_detector_witness :
    get_video_available [("video_available", some (RawVal.num 0))] = 1 ∧
    impute_feature [("video_available", some (RawVal.num 0))]
        (get_video_available [("video_available", some (RawVal.num 0))] == 1)
        "face_presence_ratio" = mkRat 5 10 ∧
    (mkRat 5 10 : ℚ) ≠ 0 := by
  have h := C10_flag_feature_flips_detector (RawVal.num 0)
  have h3 := h.2.2 "face_presence_ratio" (by decide) (by decide)
  exact ⟨h.2.1, h3.1, h3.2⟩

theorem impute_feature_valid (features : Raw) (va : Bool) (name : String) (q0 : ℚ)
    (h : validOf ((rawget features name).join) = some q0) :
    impute_feature features va name =
      npClip q0 (featureMeta name).fmin (featureMeta name).fmax := by
  unfold impute_feature
  rw [h]

theorem impute_feature_invalid (features : Raw) (va : Bool) (name : String)
    (h : validOf ((rawget features name).join) = none) :
    impute_feature features va name =
      if (featureMeta name).opt then
        (if va then (featureMeta name).fdefault else 0)
      else (featureMeta name).fdefault := by
  unfold impute_feature
  rw [h]

theorem roundHalfEven_intCast (n : ℤ) : roundHalfEven (n : ℚ) = n := by
  unfold roundHalfEven
  rw [half_val, Int.floor_intCast, sub_self]
  norm_num

/-- C3: score outputs.  With all four models loaded, each skill score is the
model’s raw prediction rounded to the nearest integer (`np.round`, ties to
even — the rounding error never exceeds 1/2) and clamped to `[0, 100]`;
`overall = round(0.25*confidence + 0.30*clarity + 0.20*empathy +
0.25*communication)` and lies within `[0, 100]`; in particular skill scores
(80, 60, 40, 80) give overall 66. -/
theorem C3_score_outputs (predict : List PyFloat → String → ℚ) (features : Raw) :
    (score_session true predict features).confidence =
      npClipInt (roundHalfEven (predict (build_feature_vector features).fst "confidence")) 0 100 ∧
    (score_session true predict features).clarity =
      npClipInt (roundHalfEven (predict (build_feature_vector features).fst "clarity")) 0 100 ∧
    (score_session true predict features).empathy =
      npClipInt (roundHalfEven (predict (build_feature_vector features).fst "empathy")) 0 100 ∧
    (score_session true predict features).communication =
      npClipInt (roundHalfEven (predict (build_feature_vector features).fst "communication")) 0 100 ∧
    (∀ q : ℚ, |(roundHalfEven q : ℚ) - q| ≤ 1 / 2) ∧
    (0 ≤ (score_session true predict features).confidence ∧
      (score_session true predict features).confidence ≤ 100) ∧
    (0 ≤ (score_session true predict features).clarity ∧
      (score_session true predict features).clarity ≤ 100) ∧
    (0 ≤ (score_session true predict features).empathy ∧
      (score_session true predict features).empathy ≤ 100) ∧
    (0 ≤ (score_session true predict features).communication ∧
      (score_session true predict features).communication ≤ 100) ∧
    (score_session true predict features).overall =
      roundHalfEven (1 / 4 * ((score_session true predict features).confidence : ℚ) +
        3 / 10 * ((score_session true predict features).clarity : ℚ) +
        1 / 5 * ((score_session true predict features).empathy : ℚ) +
        1 / 4 * ((score_session true predict features).communication : ℚ)) ∧
    (0 ≤ (score_session true predict features).overall ∧
      (score_session true predict features).overall ≤ 100) ∧
    ((score_session true predict features).confidence = 80 →
      (score_session true predict features).clarity = 60 →
      (score_session true predict features).empathy = 40 →
      (score_session true predict features).communication = 80 →
      (score_session true predict features).overall = 66) := by
  have e1 : (mkRat 25 100 : ℚ) = 1 / 4 := by norm_num [mkRat]
  have e2 : (mkRat 30 100 : ℚ) = 3 / 10 := by norm_num [mkRat]
  have e3 : (mkRat 20 100 : ℚ) = 1 / 5 := by norm_num [mkRat]
  have hov : (score_session true predict features).overall =
      roundHalfEven (mkRat 25 100 * ((score_session true predict features).confidence : ℚ) +
        mkRat 30 100 * ((score_session true predict features).clarity : ℚ) +
        mkRat 20 100 * ((score_session true predict features).empathy : ℚ) +
        mkRat 25 100 * ((score_session true predict features).communication : ℚ)) := rfl
  obtain ⟨b1, b2⟩ := skill_score_bounds (predict (build_feature_vector features).fst "confidence")
  obtain ⟨b3, b4⟩ := skill_score_bounds (predict (build_feature_vector features).fst "clarity")
  obtain ⟨b5, b6⟩ := skill_score_bounds (predict (build_feature_vector features).fst "empathy")
  obtain ⟨b7, b8⟩ := skill_score_bounds (predict (build_feature_vector features).fst "communication")
  refine ⟨rfl, rfl, rfl, rfl, roundHalfEven_nearest, ⟨b1, b2⟩, ⟨b3, b4⟩, ⟨b5, b6⟩, ⟨b7, b8⟩,
    ?_, ?_, ?_⟩
  · rw [hov, e1, e2, e3]
  · exact overall_bounds _ _ _ _ b1 b2 b3 b4 b5 b6 b7 b8
  · intro h1 h2 h3 h4
    rw [hov, h1, h2, h3, h4, e1, e2, e3]
    have hsum : (1 / 4 : ℚ) * ((80 : ℤ) : ℚ) + 3 / 10 * ((60 : ℤ) : ℚ) +
        1 / 5 * ((40 : ℤ) : ℚ) + 1 / 4 * ((80 : ℤ) : ℚ) = ((66 : ℤ) : ℚ) := by
      push_cast
      norm_num
    rw [hsum, roundHalfEven_intCast]

/-- Witness for C3: a prediction function realizing the spec example’s
skill scores (80, 60, 40, 80) yields overall 66. -/
theorem C3_score_outputs_witness :
    (score_session true predictExample []).confidence = 80 ∧
    (score_session true predictExample []).clarity = 60 ∧
    (score_session true predictExample []).empathy = 40 ∧
    (score_session true predictExample []).communication = 80 ∧
    (score_session true predictExample []).overall = 66 := by
  have h := C3_score_outputs predictExample []
  refine ⟨by with_unfolding_all decide, by with_unfolding_all decide,
    by with_unfolding_all decide, by with_unfolding_all decide, ?_⟩
  exact h.2.2.2.2.2.2.2.2.2.2.2 (by with_unfolding_all decide) (by with_unfolding_all decide)
    (by with_unfolding_all decide) (by with_unfolding_all decide)

/-- C4: video-availability branching.  The detector returns 1 iff some
video-modality feature name is present in the raw mapping with a non-null
value (validity is not checked, only presence); when it returns 0 every
missing/invalid video feature is imputed as `0.0` (not its nominal
default), and when it returns 1 every missing/invalid video feature gets
its declared default. -/
theorem C4_video_branching (features : Raw) :
    (get_video_available features = 1 ↔
      ∃ feat, feat ∈ VIDEO_FEATURES ∧ ∃ v : RawVal, rawget features feat = some (some v)) ∧
    (get_video_available features = 0 →
      ∀ feat, feat ∈ VIDEO_FEATURES → validOf ((rawget features feat).join) = none →
        impute_feature features (get_video_available features == 1) feat = 0) ∧
    (get_video_available features = 1 →
      ∀ feat, feat ∈ VIDEO_FEATURES → validOf ((rawget features feat).join) = none →
        impute_feature features (get_video_available features == 1) feat =
          (featureMeta feat).fdefault) := by
  have hopt : ∀ feat ∈ VIDEO_FEATURES, (featureMeta feat).opt = true := by
    intro feat hf
    simpa using List.all_eq_true.mp video_all_opt feat hf
  refine ⟨?_, ?_, ?_⟩
  · unfold get_video_available
    split_ifs with hany
    · rw [List.any_eq_true] at hany
      obtain ⟨feat, hf, hs⟩ := hany
      rw [Option.isSome_iff_exists] at hs
      obtain ⟨v, hv⟩ := hs
      rw [Option.join_eq_some] at hv
      exact ⟨fun _ => ⟨feat, hf, v, hv⟩, fun _ => rfl⟩
    · constructor
      · intro h
        exact absurd h (by decide)
      · rintro ⟨feat, hf, v, hv⟩
        exfalso
        apply hany
        rw [List.any_eq_true]
        exact ⟨feat, hf, by rw [hv]; rfl⟩
  · intro h0 feat hf hval
    rw [impute_feature_invalid _ _ _ hval, hopt feat hf, h0]
    rfl
  · intro h1 feat hf hval
    rw [impute_feature_invalid _ _ _ hval, hopt feat hf, h1]
    rfl

/-- Witness for C4: with no video entry the detector reports 0 and the
missing `smile_ratio` is imputed as `0.0`; with one present video entry it
reports 1 and the missing `smile_ratio` gets its default `0.3`. -/
theorem C4_video_branching_witness :
    get_video_available [] = 0 ∧
    impute_feature [] (get_video_available [] == 1) "smile_ratio" = 0 ∧
    get_video_available [("eye_contact_ratio", some (RawVal.num 1))] = 1 ∧
    impute_feature [("eye_contact_ratio", some (RawVal.num 1))]
        (get_video_available [("eye_contact_ratio", some (RawVal.num 1))] == 1)
        "smile_ratio" = mkRat 3 10 := by
  have h1 := C4_video_branching []
  have h2 := C4_video_branching [("eye_contact_ratio", some (RawVal.num 1))]
  refine ⟨rfl, ?_, rfl, ?_⟩
  · exact h1.2.1 rfl "smile_ratio" (by decide) rfl
  · exact h2.2.2 rfl "smile_ratio" (by decide) rfl

/-- C6: low-feature identification and caps.  `_identify_low_features`
returns exactly the names of the threshold rules that fire (direction
`high` and raw value strictly above the threshold, or `low` and strictly
below; missing, unconvertible, NaN or infinite raw values never fire), in
table-iteration order, without duplicates, truncated to at most 5; and
`_generate_suggestions` returns a deduplicated list of at most 5. -/
theorem C6_low_features_and_caps (features : Raw) (scores : Scores)
    (low_features : List String) :
    identify_low_features features scores =
      ((bad_thresholds.filter (rule_fires features)).map Prod.fst).take 5 ∧
    (identify_low_features features scores).Nodup ∧
    (identify_low_features features scores).length ≤ 5 ∧
    (generate_suggestions low_features scores).Nodup ∧
    (generate_suggestions low_features scores).length ≤ 5 := by
  refine ⟨identify_low_features_eq features scores,
    identify_low_features_nodup features scores, ?_,
    generate_suggestions_nodup low_features scores, ?_⟩
  · unfold identify_low_features
    exact take_five_len_le _
  · unfold generate_suggestions
    exact take_five_len_le _

/-- Counterexample to C7 as stated: with all other skills high and
`communication = 40 < 50`, no generic suggestion at all is appended — the
source has no communication branch. -/
theorem C7_communication_counterexample :
    Scores.communication
        { confidence := 100, clarity := 100, empathy := 100, communication := 40 } < 50 ∧
    raw_suggestions []
        { confidence := 100, clarity := 100, empathy := 100, communication := 40 } = [] ∧
    generate_suggestions []
        { confidence := 100, clarity := 100, empathy := 100, communication := 40 } = [] :=
  ⟨by decide, rfl, rfl⟩

/-- C7 (amended): a skill-level generic suggestion is appended (before
deduplication and truncation) whenever confidence, clarity or empathy is
strictly below 50; there is no generic suggestion for communication — the
suggestion list does not depend on the communication score at all. -/
theorem C7_generic_suggestions_amended (low_features : List String) (scores : Scores) :
    (scores.confidence < 50 → confidence_generic ∈ raw_suggestions low_features scores) ∧
    (scores.clarity < 50 → clarity_generic ∈ raw_suggestions low_features scores) ∧
    (scores.empathy < 50 → empathy_generic ∈ raw_suggestions low_features scores) ∧
    (∀ c : ℤ, raw_suggestions low_features { scores with communication := c } =
      raw_suggestions low_features scores) := by
  refine ⟨fun h => ?_, fun h => ?_, fun h => ?_, fun c => rfl⟩
  · unfold raw_suggestions
    rw [if_pos h]
    simp
  · unfold raw_suggestions
    rw [if_pos h]
    simp
  · unfold raw_suggestions
    rw [if_pos h]
    simp

/-- Witness for the amended C7 at scores (40, 40, 40, 40): all three
generic suggestions occur in the raw suggestion list. -/
theorem C7_generic_suggestions_amended_witness :
    confidence_generic ∈ raw_suggestions []
        { confidence := 40, clarity := 40, empathy := 40, communication := 40 } ∧
    clarity_generic ∈ raw_suggestions []
        { confidence := 40, clarity := 40, empathy := 40, communication := 40 } ∧
    empathy_generic ∈ raw_suggestions []
        { confidence := 40, clarity := 40, empathy := 40, communication := 40 } := by
  have h := C7_generic_suggestions_amended []
    { confidence := 40, clarity := 40, empathy := 40, communication := 40 }
  exact ⟨h.1 (by decide), h.2.1 (by decide), h.2.2.1 (by decide)⟩

/-- Counterexample to C8 as stated: Python `float(True) = 1.0`, so a raw
boolean passes the validity check and is used as the numeric value 1.0
(clipped), not replaced by the feature’s default (0.2 for
`silence_ratio`). -/
theorem C8_boolean_counterexample :
    validOf (some (RawVal.boolv true)) = some 1 ∧
    impute_feature [("silence_ratio", some (RawVal.boolv true))] false "silence_ratio" = 1 ∧
    (featureMeta "silence_ratio").fdefault = mkRat 2 10 ∧
    (1 : ℚ) ≠ mkRat 2 10 :=
  ⟨rfl, by decide, rfl, by decide⟩

/-- C8 (amended): a raw boolean is numerically convertible
(`True → 1.0`, `False → 0.0`) and is therefore treated as a valid value —
clipped to the feature’s range and used — while `None`, missing keys, NaN,
±Infinity and unconvertible objects remain invalid and silently trigger
per-feature imputation. -/
theorem C8_boolean_amended (features : Raw) (name : String) (b : Bool) (va : Bool) :
    (rawget features name = some (some (RawVal.boolv b)) →
      impute_feature features va name =
        npClip (if b then 1 else 0) (featureMeta name).fmin (featureMeta name).fmax) ∧
    validOf (some RawVal.nanv) = none ∧
    validOf (some RawVal.infv) = none ∧
    validOf (some RawVal.badstr) = none ∧
    validOf none = none ∧
    (validOf ((rawget features name).join) = none →
      impute_feature features va name =
        if (featureMeta name).opt then
          (if va then (featureMeta name).fdefault else 0)
        else (featureMeta name).fdefault) := by
  refine ⟨fun h => ?_, rfl, rfl, rfl, rfl,
    fun h => impute_feature_invalid features va name h⟩
  have hv : validOf ((rawget features name).join) = some (if b then 1 else 0) := by
    rw [h]
    rfl
  exact impute_feature_valid features va name _ hv

/-- Witness for the amended C8: a raw `True` under `silence_ratio` is used
as the clipped numeric value 1.0, while a missing `hedge_ratio` is imputed
with its default. -/
theorem C8_boolean_amended_witness :
    impute_feature [("silence_ratio", some (RawVal.boolv true))] false "silence_ratio" =
      npClip (if true then 1 else 0) (featureMeta "silence_ratio").fmin
        (featureMeta "silence_ratio").fmax ∧
    impute_feature [] false "hedge_ratio" =
      (if (featureMeta "hedge_ratio").opt then
        (if false then (featureMeta "hedge_ratio").fdefault else 0)
      else (featureMeta "hedge_ratio").fdefault) := by
  have h1 := C8_boolean_amended [("silence_ratio", some (RawVal.boolv true))]
    "silence_ratio" true false
  have h2 := C8_boolean_amended [] "hedge_ratio" true false
  exact ⟨h1.1 rfl, h2.2.2.2.2.2 rfl⟩
end Aura
